import Mathlib

/-!
Verification of `scripts/statistics.py` (badge statistics reporter).

The script runs three recursive text searches over a directory, coerces
any search failure to a count of 0, picks a badge colour from the
admitted/theorem counts, builds a badge URL and writes the fetched image
to `admitted.svg`.  The external effects (the three subprocess searches,
the HTTP fetch) are passed in as explicit parameters; the numeric
comparisons of `pick_colour` are taken over ℚ, where the literals `0.2`
and `0.1` are exact (for all counts below 2^52 the Python double
comparisons agree with the exact rational ones).
-/

/-- Result of one recursive text search: on success the list of matching
lines (whose length the script counts), on failure an error description.
Models one `subprocess.check_output(["grep", ...])` call wrapped in a
bare `try`/`except`. -/
abbrev SearchResult := Except String (List String)

/-- Line count of one search result, with any failure coerced to 0, as in
each `try`/`except` block of `collect`. -/
def countLines : SearchResult → Nat
  | .ok ls => ls.length
  | .error _ => 0

/-- collect(d): three independent searches (patterns `Admitted`,
`Theorem|Lemma|Remark`, `Qed|Defined`), each failing search contributing
count 0; returns the triple `(n_admitted, n_theorems, n_qed)`. -/
def collect (rA rT rQ : SearchResult) : Nat × Nat × Nat :=
  (countLines rA, countLines rT, countLines rQ)

/-- pick_colour(n, m) from the source:
`if n > 0.2 * m: "red" elif n > 0.1 * m: "orange" elif n == 0:
"brightgreen" else: "yellow"`, with the two threshold comparisons
evaluated exactly over ℚ. -/
def pick_colour (n m : Nat) : String :=
  if (n : ℚ) > 0.2 * m then "red"
  else if (n : ℚ) > 0.1 * m then "orange"
  else if n = 0 then "brightgreen"
  else "yellow"

/-- The badge URL built in `main`:
`"https://img.shields.io/badge/admitted%20proofs-{}-{}?style=flat".format(str(n_admitted), colour)`. -/
def badge_url (n_admitted : Nat) (colour : String) : String :=
  "https://img.shields.io/badge/admitted%20proofs-" ++ toString n_admitted
    ++ "-" ++ colour ++ "?style=flat"

/-- The URL `main` requests, as a function of the three search results:
`main` destructures `collect`'s triple as `n_admitted, n_theorems, _`,
discarding the third component. -/
def main_url (rA rT rQ : SearchResult) : String :=
  badge_url (collect rA rT rQ).1
    (pick_colour (collect rA rT rQ).1 (collect rA rT rQ).2.1)

/-- One observable side effect of `main`, in program order. -/
inductive Event : Type
  | openTrunc (path : String)
  | httpGet (url : String)
  | fileWrite (path : String) (bytes : List Nat)
deriving DecidableEq

/-- main(d), with the external effects explicit: the event trace and the
outcome.  The source opens `admitted.svg` with mode `"wb"`
(truncate-or-create) before `urlopen` issues the request; on success the
response body is written, on failure the exception propagates with the
file already truncated. -/
def main_run (rA rT rQ : SearchResult)
    (fetch : String → Except String (List Nat)) :
    List Event × Except String Unit :=
  let url := main_url rA rT rQ
  match fetch url with
  | .ok body =>
      ([.openTrunc "admitted.svg", .httpGet url,
        .fileWrite "admitted.svg" body], .ok ())
  | .error e =>
      ([.openTrunc "admitted.svg", .httpGet url], .error e)

/-! Characterisation of the two rational threshold comparisons by
integer inequalities. -/

theorem ratio_fifth_iff (n m : Nat) : ((n : ℚ) > 0.2 * m) ↔ 5 * n > m := by
  have h02 : (0.2 : ℚ) = 1 / 5 := by norm_num
  rw [h02]
  constructor
  · intro h
    by_contra hc
    push_neg at hc
    have hq : ((5 * n : Nat) : ℚ) ≤ (m : ℚ) := by exact_mod_cast hc
    push_cast at hq
    linarith
  · intro h
    have hq : ((m : Nat) : ℚ) < ((5 * n : Nat) : ℚ) := by exact_mod_cast h
    push_cast at hq
    linarith

theorem ratio_tenth_iff (n m : Nat) : ((n : ℚ) > 0.1 * m) ↔ 10 * n > m := by
  have h01 : (0.1 : ℚ) = 1 / 10 := by norm_num
  rw [h01]
  constructor
  · intro h
    by_contra hc
    push_neg at hc
    have hq : ((10 * n : Nat) : ℚ) ≤ (m : ℚ) := by exact_mod_cast hc
    push_cast at hq
    linarith
  · intro h
    have hq : ((m : Nat) : ℚ) < ((10 * n : Nat) : ℚ) := by exact_mod_cast h
    push_cast at hq
    linarith

theorem pick_colour_char (n m : Nat) :
    pick_colour n m =
      if 5 * n > m then "red"
      else if 10 * n > m then "orange"
      else if n = 0 then "brightgreen"
      else "yellow" := by
  unfold pick_colour
  rw [if_congr (ratio_fifth_iff n m) rfl rfl,
    if_congr (ratio_tenth_iff n m) rfl rfl]

/-- Claim C1 counterexample: with theorem count 0 and one admitted line,
the first branch condition `n > 0.2 * m` is `1 > 0.2 * 0 = 0`, which is
true, so `pick_colour` returns "red", not "yellow" as claimed. -/
theorem pick_colour_one_zero_not_yellow :
    pick_colour 1 0 = "red" ∧ pick_colour 1 0 ≠ "yellow" := by
  rw [pick_colour_char]
  decide

/-- Claim C1 (amended): for every n_admitted > 0, pick_colour(n_admitted, 0)
returns "red": with theorem count 0 both ratio thresholds are 0, so the
first branch condition `n_admitted > 0` already holds. -/
theorem pick_colour_zero_theorems_red (n : Nat) (h : 0 < n) :
    pick_colour n 0 = "red" := by
  rw [pick_colour_char]
  rw [if_pos]
  omega

/-- Witness for the amended claim C1 at n_admitted = 3. -/
theorem pick_colour_zero_theorems_red_witness :
    0 < 3 ∧ pick_colour 3 0 = "red" :=
  ⟨by decide, pick_colour_zero_theorems_red 3 (by decide)⟩

/-- Claim C2: for every non-negative theorem count m, pick_colour(0, m)
returns "brightgreen"; in particular at m = 0.  Both ratio branches fail
since 0 is not greater than a non-negative threshold, and the `n == 0`
branch is taken. -/
theorem pick_colour_zero_admitted (m : Nat) :
    pick_colour 0 m = "brightgreen" := by
  rw [pick_colour_char]
  simp

/-- Claim C3: for all n_admitted, n_theorems with n_theorems > 0 and
5 * n_admitted > n_theorems (the exact form of
n_admitted > 0.2 * n_theorems), pick_colour returns "red". -/
theorem pick_colour_red (n m : Nat) (_hm : 0 < m) (h : 5 * n > m) :
    pick_colour n m = "red" := by
  rw [pick_colour_char]
  rw [if_pos h]

/-- Witness for claim C3 at (n_admitted, n_theorems) = (5, 10): ratio 0.5
exceeds 0.2, so the colour is "red". -/
theorem pick_colour_red_witness :
    0 < 10 ∧ 5 * 5 > 10 ∧ pick_colour 5 10 = "red" :=
  ⟨by decide, by decide, pick_colour_red 5 10 (by decide) (by decide)⟩

/-- Claim C4: for all n_admitted, n_theorems with n_theorems > 0,
10 * n_admitted > n_theorems and 5 * n_admitted ≤ n_theorems (the exact
forms of the two threshold comparisons), pick_colour returns "orange". -/
theorem pick_colour_orange (n m : Nat) (_hm : 0 < m)
    (h10 : 10 * n > m) (h5 : 5 * n ≤ m) :
    pick_colour n m = "orange" := by
  rw [pick_colour_char]
  rw [if_neg (by omega), if_pos h10]

/-- Witness for claim C4 at (n_admitted, n_theorems) = (1, 5). -/
theorem pick_colour_orange_witness :
    0 < 5 ∧ 10 * 1 > 5 ∧ 5 * 1 ≤ 5 ∧ pick_colour 1 5 = "orange" :=
  ⟨by decide, by decide, by decide,
    pick_colour_orange 1 5 (by decide) (by decide) (by decide)⟩

/-- Claim C5: for all n_admitted, n_theorems with n_theorems > 0,
n_admitted > 0 and 10 * n_admitted ≤ n_theorems (the exact form of
n_admitted ≤ 0.1 * n_theorems), pick_colour returns "yellow". -/
theorem pick_colour_yellow (n m : Nat) (_hm : 0 < m) (hn : 0 < n)
    (h : 10 * n ≤ m) :
    pick_colour n m = "yellow" := by
  rw [pick_colour_char]
  rw [if_neg (by omega), if_neg (by omega), if_neg (by omega)]

/-- Witness for claim C5 at (n_admitted, n_theorems) = (1, 10). -/
theorem pick_colour_yellow_witness :
    0 < 10 ∧ 0 < 1 ∧ 10 * 1 ≤ 10 ∧ pick_colour 1 10 = "yellow" :=
  ⟨by decide, by decide, by decide,
    pick_colour_yellow 1 10 (by decide) (by decide) (by decide)⟩

/-- Claim C6: collect never propagates a search failure: a failing search
yields count 0 for its category (first conjuncts, one per category), and
when all three searches fail collect returns (0, 0, 0) without raising
(last conjunct; the error is absent from the result type). -/
theorem collect_errors_to_zero :
    (∀ (e : String) (rT rQ : SearchResult),
      (collect (.error e) rT rQ).1 = 0) ∧
    (∀ (rA : SearchResult) (e : String) (rQ : SearchResult),
      (collect rA (.error e) rQ).2.1 = 0) ∧
    (∀ (rA rT : SearchResult) (e : String),
      (collect rA rT (.error e)).2.2 = 0) ∧
    (∀ (eA eT eQ : String),
      collect (.error eA) (.error eT) (.error eQ) = (0, 0, 0)) :=
  ⟨fun _ _ _ => rfl, fun _ _ _ => rfl, fun _ _ _ => rfl, fun _ _ _ => rfl⟩

/-- Claim C7: the badge URL is exactly the fixed prefix, the admitted
count, a dash, the colour chosen by pick_colour, and the fixed query
suffix; when all three searches fail (counts (0, 0, 0)) the URL contains
the substring "admitted%20proofs-0-brightgreen". -/
theorem main_url_spec :
    (∀ rA rT rQ : SearchResult,
      main_url rA rT rQ =
        "https://img.shields.io/badge/admitted%20proofs-" ++
          toString (collect rA rT rQ).1 ++ "-" ++
          pick_colour (collect rA rT rQ).1 (collect rA rT rQ).2.1 ++
          "?style=flat") ∧
    (∀ eA eT eQ : String,
      main_url (.error eA) (.error eT) (.error eQ) =
        "https://img.shields.io/badge/admitted%20proofs-0-brightgreen?style=flat" ∧
      ∃ p q : String,
        main_url (.error eA) (.error eT) (.error eQ) =
          p ++ "admitted%20proofs-0-brightgreen" ++ q) := by
  constructor
  · intro rA rT rQ
    rfl
  · intro eA eT eQ
    constructor
    · show badge_url 0 (pick_colour 0 0) = _
      rw [pick_colour_char]
      rfl
    · refine ⟨"https://img.shields.io/badge/", "?style=flat", ?_⟩
      show badge_url 0 (pick_colour 0 0) = _
      rw [pick_colour_char]
      rfl

/-- Claim C8: pick_colour is total (it is a Lean function, defined on all
pairs of naturals, including n_theorems = 0) and its result is always one
of the four tags "red", "orange", "yellow", "brightgreen". -/
theorem pick_colour_total (n m : Nat) :
    pick_colour n m = "red" ∨ pick_colour n m = "orange" ∨
    pick_colour n m = "yellow" ∨ pick_colour n m = "brightgreen" := by
  rw [pick_colour_char]
  split_ifs <;> simp

/-- Claim C9: the Qed|Defined count never influences main's output: two
runs whose searches differ only in the third (Qed|Defined) search produce
the same colour, the same badge URL, and the same event trace and outcome
(hence identical bytes written to admitted.svg), because main discards
the third component of collect's triple. -/
theorem qed_count_noninterference (rA rT rQ rQ' : SearchResult)
    (fetch : String → Except String (List Nat)) :
    pick_colour (collect rA rT rQ).1 (collect rA rT rQ).2.1 =
      pick_colour (collect rA rT rQ').1 (collect rA rT rQ').2.1 ∧
    main_url rA rT rQ = main_url rA rT rQ' ∧
    main_run rA rT rQ fetch = main_run rA rT rQ' fetch :=
  ⟨rfl, rfl, rfl⟩

/-- Claim C10: admitted.svg is opened in write-truncate mode before the
HTTP request is issued: when the fetch of the badge URL fails, main's
trace is exactly the truncating open of admitted.svg followed by the
attempted GET, and the error propagates — the filesystem is not left
unchanged on a network error. -/
theorem network_error_after_truncate (rA rT rQ : SearchResult)
    (fetch : String → Except String (List Nat)) (e : String)
    (h : fetch (main_url rA rT rQ) = .error e) :
    main_run rA rT rQ fetch =
      ([.openTrunc "admitted.svg", .httpGet (main_url rA rT rQ)],
        .error e) := by
  simp only [main_run, h]

/-- Witness for claim C10: a fetch that always fails with "refused", run
on three successful empty searches. -/
theorem network_error_after_truncate_witness :
    (fun _ : String => (Except.error "refused" : Except String (List Nat)))
        (main_url (.ok []) (.ok []) (.ok [])) = .error "refused" ∧
    main_run (.ok []) (.ok []) (.ok [])
        (fun _ => .error "refused") =
      ([.openTrunc "admitted.svg",
        .httpGet (main_url (.ok []) (.ok []) (.ok []))],
        .error "refused") :=
  ⟨rfl, network_error_after_truncate (.ok []) (.ok []) (.ok [])
    (fun _ => .error "refused") "refused" rfl⟩
